import Mathlib

/-!
Verification of the preprocessing and job-orchestration logic of the
`student_performance_clarify` notebook.

A pandas `DataFrame` is embedded column-major: a list of named columns,
each column a list of cells in row order.  A cell is a string, an
integer, or a missing value (`NaN`).  The notebook functions used by the
claims (`_preprocess_data`, its `Series.map` dictionary encodings,
`pd.get_dummies`, `df.drop`, and the sequencing of the remote Clarify /
tuning / deployment calls) are translated below.
-/

namespace StudentClarify

/-- A cell of a data frame: a string, an integer, or a missing value
(pandas `NaN`). -/
inductive Val where
  | vstr (s : String)
  | vint (n : Int)
  | vnone
  deriving DecidableEq, Repr

/-- A column is a list of cells, in row order. -/
abbrev Col := List Val

/-- A data frame, column-major: named columns left to right. -/
abbrev DF := List (String × Col)

/-- `df.<name>` / `df["<name>"]`: the first column with the given label
(returns `[]` when absent; the notebook only accesses present labels). -/
def getCol (df : DF) (name : String) : Col :=
  ((df.find? (fun c => c.1 == name)).map Prod.snd).getD []

/-- Whether the frame has a column with the given label. -/
def hasCol (df : DF) (name : String) : Bool :=
  df.any (fun c => c.1 == name)

/-- `df.drop(["<name>"], axis=1)`: remove every column with the label. -/
def dropCol (df : DF) (name : String) : DF :=
  df.filter (fun c => c.1 != name)

/-- `Series.map({...})` on one cell: look the string up in the
dictionary; keys that are absent (and non-string cells) become `NaN`. -/
def mapVal (m : String → Option Int) : Val → Val
  | .vstr s =>
    match m s with
    | some k => .vint k
    | none => .vnone
  | _ => .vnone

/-- `Series.map({...})` on a column. -/
def mapCol (m : String → Option Int) (col : Col) : Col :=
  col.map (mapVal m)

/-- The string content of a cell, when it is a string. -/
def toStr : Val → Option String
  | .vstr s => some s
  | _ => none

/-- Ordered insertion of a string into a list. -/
def insertStr (s : String) : List String → List String
  | [] => [s]
  | t :: ts => if s ≤ t then s :: t :: ts else t :: insertStr s ts

/-- Insertion sort on strings (pandas sorts the dummy categories). -/
def sortStrs : List String → List String
  | [] => []
  | s :: ss => insertStr s (sortStrs ss)

/-- The distinct string values of a column, sorted: the categories that
`pd.get_dummies` produces indicator columns for (missing cells are
skipped, as with `dummy_na=False`). -/
def dummyVals (col : Col) : List String :=
  sortStrs (col.filterMap toStr).dedup

/-- `pd.get_dummies(col, prefix=pre)`: one indicator column per distinct
value of the column, labelled `pre ++ "_" ++ value`. -/
def get_dummies (pre : String) (col : Col) : DF :=
  (dummyVals col).map (fun s =>
    (pre ++ "_" ++ s,
     col.map (fun v => if v = Val.vstr s then Val.vint 1 else Val.vint 0)))

/-- The 32 column names assigned positionally by `_preprocess_data`. -/
def columnNames : List String :=
  ["Gender", "Age", "Address", "FamilySize", "ParentCohabStatus",
   "MotherEducation", "FatherEducation", "MotherJob", "FatherJob",
   "SchoolChoiceReason", "Guardian", "TravelTime", "StudyTime",
   "Failures", "SchoolSup", "FamilySup", "ExtraPaidClasses",
   "ExtraActivities", "Nursery", "WantsHigherEdu", "HasInternet",
   "Romantic", "FamilyRelQuality", "FreeTime", "GoOut",
   "WorkdayAlcohol", "WeekendAlcohol", "HealthStatus", "Absences",
   "FirstGrade", "SecondGrade", "FinalGrade"]

/-- `students.columns = [...]`: positional renaming.  Pandas raises a
length-mismatch error unless the frame has exactly 32 columns. -/
def renameColumns (cols : List Col) : Option DF :=
  if cols.length = 32 then some (columnNames.zip cols) else none

/-- The dictionary `{"F": 1, "M": 0}`. -/
def genderEnc (s : String) : Option Int :=
  if s = "F" then some 1 else if s = "M" then some 0 else none

/-- The dictionary `{"U": 1, "R": 0}`. -/
def addressEnc (s : String) : Option Int :=
  if s = "U" then some 1 else if s = "R" then some 0 else none

/-- The dictionary `{"LE3": 1, "GT3": 0}`. -/
def famSizeEnc (s : String) : Option Int :=
  if s = "LE3" then some 1 else if s = "GT3" then some 0 else none

/-- The dictionary `{"T": 1, "A": 0}`. -/
def cohabEnc (s : String) : Option Int :=
  if s = "T" then some 1 else if s = "A" then some 0 else none

/-- The dictionary `{"yes": 1, "no": 0}` used for every yes/no column. -/
def yesNoEnc (s : String) : Option Int :=
  if s = "yes" then some 1 else if s = "no" then some 0 else none

/-- The body of `_preprocess_data` after the renaming: start from
`pd.DataFrame(students.FinalGrade)` and `pd.concat` each encoded or
copied column onto it, in the notebook's order.  (`ExtraActivities`,
`Guardian`, `FirstGrade` and `SecondGrade` are never concatenated.) -/
def encodeStudents (st : DF) : DF :=
  [("FinalGrade", getCol st "FinalGrade"),
   ("Gender", mapCol genderEnc (getCol st "Gender")),
   ("Age", getCol st "Age"),
   ("Address", mapCol addressEnc (getCol st "Address")),
   ("FamilySize", mapCol famSizeEnc (getCol st "FamilySize")),
   ("ParentCohabStatus", mapCol cohabEnc (getCol st "ParentCohabStatus")),
   ("MotherEducation", getCol st "MotherEducation"),
   ("FatherEducation", getCol st "FatherEducation")]
  ++ get_dummies "MotherJob" (getCol st "MotherJob")
  ++ get_dummies "FatherJob" (getCol st "FatherJob")
  ++ get_dummies "SchoolChoiceReason" (getCol st "SchoolChoiceReason")
  ++ [("TravelTime", getCol st "TravelTime"),
      ("StudyTime", getCol st "StudyTime"),
      ("Failures", getCol st "Failures"),
      ("SchoolSup", mapCol yesNoEnc (getCol st "SchoolSup")),
      ("FamilySup", mapCol yesNoEnc (getCol st "FamilySup")),
      ("ExtraPaidClasses", mapCol yesNoEnc (getCol st "ExtraPaidClasses")),
      ("Nursery", mapCol yesNoEnc (getCol st "Nursery")),
      ("WantsHigherEdu", mapCol yesNoEnc (getCol st "WantsHigherEdu")),
      ("HasInternet", mapCol yesNoEnc (getCol st "HasInternet")),
      ("Romantic", mapCol yesNoEnc (getCol st "Romantic")),
      ("FamilyRelQuality", getCol st "FamilyRelQuality"),
      ("FreeTime", getCol st "FreeTime"),
      ("GoOut", getCol st "GoOut"),
      ("WorkdayAlcohol", getCol st "WorkdayAlcohol"),
      ("WeekendAlcohol", getCol st "WeekendAlcohol"),
      ("HealthStatus", getCol st "HealthStatus"),
      ("Absences", getCol st "Absences")]

/-- `_preprocess_data(students)`: rename the 32 columns positionally,
build the encoded frame `df`, and return
`(X, y, df) = (df.drop(["FinalGrade"], axis=1), df.FinalGrade, df)`. -/
def _preprocess_data (cols : List Col) : Option (DF × Col × DF) :=
  match renameColumns cols with
  | none => none
  | some students =>
    let df := encodeStudents students
    some (dropCol df "FinalGrade", getCol df "FinalGrade", df)

/-! ### General lemmas about the frame primitives -/

theorem ne_of_not_isPrefixOf (pre s t : String)
    (h : pre.data.isPrefixOf t.data = false) : pre ++ s ≠ t := by
  intro he
  subst he
  rw [String.data_append] at h
  have h2 : pre.data.isPrefixOf (pre.data ++ s.data) = true :=
    List.isPrefixOf_iff_prefix.mpr (List.prefix_append _ _)
  simp [h2] at h

theorem mem_get_dummies (pre : String) (col : Col) (c : String × Col)
    (hc : c ∈ get_dummies pre col) :
    ∃ s, c = (pre ++ "_" ++ s,
      col.map (fun v => if v = Val.vstr s then Val.vint 1 else Val.vint 0)) := by
  simp [get_dummies] at hc
  obtain ⟨s, _, rfl⟩ := hc
  exact ⟨s, rfl⟩

theorem find?_get_dummies_eq_none (pre name : String) (col : Col)
    (h : (pre ++ "_").data.isPrefixOf name.data = false) :
    (get_dummies pre col).find? (fun c => c.1 == name) = none := by
  rw [List.find?_eq_none]
  intro c hc
  obtain ⟨s, rfl⟩ := mem_get_dummies pre col c hc
  simpa using ne_of_not_isPrefixOf (pre ++ "_") s name h

theorem getCol_cons_ne (n name : String) (c : Col) (df : DF) (h : ¬ n = name) :
    getCol ((n, c) :: df) name = getCol df name := by
  simp [getCol, h]

theorem getD_mem_of_lt {α : Type _} (l : List α) (k : Nat) (d : α)
    (h : k < l.length) : l.getD k d ∈ l := by
  rw [List.getD_eq_getElem _ _ h]
  exact List.getElem_mem h

theorem getCol_zip (names : List String) (cols : List Col) (k : Nat)
    (hng : names.Nodup) (hk : k < names.length) (hl : names.length ≤ cols.length) :
    getCol (names.zip cols) (names.getD k "") = cols.getD k [] := by
  induction names generalizing cols k with
  | nil => simp at hk
  | cons n ns ih =>
    cases cols with
    | nil => simp at hl
    | cons c cs =>
      cases k with
      | zero => simp [getCol]
      | succ k =>
        have hk' : k < ns.length := by simpa using hk
        have hmem : ns.getD k "" ∈ ns := getD_mem_of_lt ns k "" hk'
        have hne : ¬ n = ns.getD k "" := by
          intro he
          exact (List.nodup_cons.mp hng).1 (he ▸ hmem)
        simp only [List.zip_cons_cons, List.getD_cons_succ]
        rw [getCol_cons_ne _ _ _ _ hne]
        exact ih cs k (List.nodup_cons.mp hng).2 hk' (by simpa using hl)

theorem getCol_columnNames_zip (cols : List Col) (h : cols.length = 32)
    (k : Nat) (hk : k < 32) :
    getCol (columnNames.zip cols) (columnNames.getD k "") = cols.getD k [] :=
  getCol_zip columnNames cols k (by decide) (by simpa [columnNames] using hk)
    (by simp [columnNames, h])

/-! ### Access lemmas: the renamed frame and the encoded frame -/

theorem zipGender (cols : List Col) (h : cols.length = 32) :
    getCol (columnNames.zip cols) "Gender" = cols.getD 0 [] :=
  getCol_columnNames_zip cols h 0 (by decide)

theorem zipAge (cols : List Col) (h : cols.length = 32) :
    getCol (columnNames.zip cols) "Age" = cols.getD 1 [] :=
  getCol_columnNames_zip cols h 1 (by decide)

theorem zipAddress (cols : List Col) (h : cols.length = 32) :
    getCol (columnNames.zip cols) "Address" = cols.getD 2 [] :=
  getCol_columnNames_zip cols h 2 (by decide)

theorem zipFamilySize (cols : List Col) (h : cols.length = 32) :
    getCol (columnNames.zip cols) "FamilySize" = cols.getD 3 [] :=
  getCol_columnNames_zip cols h 3 (by decide)

theorem zipParentCohabStatus (cols : List Col) (h : cols.length = 32) :
    getCol (columnNames.zip cols) "ParentCohabStatus" = cols.getD 4 [] :=
  getCol_columnNames_zip cols h 4 (by decide)

theorem zipMotherEducation (cols : List Col) (h : cols.length = 32) :
    getCol (columnNames.zip cols) "MotherEducation" = cols.getD 5 [] :=
  getCol_columnNames_zip cols h 5 (by decide)

theorem zipFatherEducation (cols : List Col) (h : cols.length = 32) :
    getCol (columnNames.zip cols) "FatherEducation" = cols.getD 6 [] :=
  getCol_columnNames_zip cols h 6 (by decide)

theorem zipMotherJob (cols : List Col) (h : cols.length = 32) :
    getCol (columnNames.zip cols) "MotherJob" = cols.getD 7 [] :=
  getCol_columnNames_zip cols h 7 (by decide)

theorem zipFatherJob (cols : List Col) (h : cols.length = 32) :
    getCol (columnNames.zip cols) "FatherJob" = cols.getD 8 [] :=
  getCol_columnNames_zip cols h 8 (by decide)

theorem zipSchoolChoiceReason (cols : List Col) (h : cols.length = 32) :
    getCol (columnNames.zip cols) "SchoolChoiceReason" = cols.getD 9 [] :=
  getCol_columnNames_zip cols h 9 (by decide)

theorem zipTravelTime (cols : List Col) (h : cols.length = 32) :
    getCol (columnNames.zip cols) "TravelTime" = cols.getD 11 [] :=
  getCol_columnNames_zip cols h 11 (by decide)

theorem zipStudyTime (cols : List Col) (h : cols.length = 32) :
    getCol (columnNames.zip cols) "StudyTime" = cols.getD 12 [] :=
  getCol_columnNames_zip cols h 12 (by decide)

theorem zipFailures (cols : List Col) (h : cols.length = 32) :
    getCol (columnNames.zip cols) "Failures" = cols.getD 13 [] :=
  getCol_columnNames_zip cols h 13 (by decide)

theorem zipSchoolSup (cols : List Col) (h : cols.length = 32) :
    getCol (columnNames.zip cols) "SchoolSup" = cols.getD 14 [] :=
  getCol_columnNames_zip cols h 14 (by decide)

theorem zipFamilySup (cols : List Col) (h : cols.length = 32) :
    getCol (columnNames.zip cols) "FamilySup" = cols.getD 15 [] :=
  getCol_columnNames_zip cols h 15 (by decide)

theorem zipExtraPaidClasses (cols : List Col) (h : cols.length = 32) :
    getCol (columnNames.zip cols) "ExtraPaidClasses" = cols.getD 16 [] :=
  getCol_columnNames_zip cols h 16 (by decide)

theorem zipNursery (cols : List Col) (h : cols.length = 32) :
    getCol (columnNames.zip cols) "Nursery" = cols.getD 18 [] :=
  getCol_columnNames_zip cols h 18 (by decide)

theorem zipWantsHigherEdu (cols : List Col) (h : cols.length = 32) :
    getCol (columnNames.zip cols) "WantsHigherEdu" = cols.getD 19 [] :=
  getCol_columnNames_zip cols h 19 (by decide)

theorem zipHasInternet (cols : List Col) (h : cols.length = 32) :
    getCol (columnNames.zip cols) "HasInternet" = cols.getD 20 [] :=
  getCol_columnNames_zip cols h 20 (by decide)

theorem zipRomantic (cols : List Col) (h : cols.length = 32) :
    getCol (columnNames.zip cols) "Romantic" = cols.getD 21 [] :=
  getCol_columnNames_zip cols h 21 (by decide)

theorem zipFamilyRelQuality (cols : List Col) (h : cols.length = 32) :
    getCol (columnNames.zip cols) "FamilyRelQuality" = cols.getD 22 [] :=
  getCol_columnNames_zip cols h 22 (by decide)

theorem zipFreeTime (cols : List Col) (h : cols.length = 32) :
    getCol (columnNames.zip cols) "FreeTime" = cols.getD 23 [] :=
  getCol_columnNames_zip cols h 23 (by decide)

theorem zipGoOut (cols : List Col) (h : cols.length = 32) :
    getCol (columnNames.zip cols) "GoOut" = cols.getD 24 [] :=
  getCol_columnNames_zip cols h 24 (by decide)

theorem zipWorkdayAlcohol (cols : List Col) (h : cols.length = 32) :
    getCol (columnNames.zip cols) "WorkdayAlcohol" = cols.getD 25 [] :=
  getCol_columnNames_zip cols h 25 (by decide)

theorem zipWeekendAlcohol (cols : List Col) (h : cols.length = 32) :
    getCol (columnNames.zip cols) "WeekendAlcohol" = cols.getD 26 [] :=
  getCol_columnNames_zip cols h 26 (by decide)

theorem zipHealthStatus (cols : List Col) (h : cols.length = 32) :
    getCol (columnNames.zip cols) "HealthStatus" = cols.getD 27 [] :=
  getCol_columnNames_zip cols h 27 (by decide)

theorem zipAbsences (cols : List Col) (h : cols.length = 32) :
    getCol (columnNames.zip cols) "Absences" = cols.getD 28 [] :=
  getCol_columnNames_zip cols h 28 (by decide)

theorem zipFinalGrade (cols : List Col) (h : cols.length = 32) :
    getCol (columnNames.zip cols) "FinalGrade" = cols.getD 31 [] :=
  getCol_columnNames_zip cols h 31 (by decide)

theorem encGender (st : DF) :
    getCol (encodeStudents st) "Gender" = mapCol genderEnc (getCol st "Gender") := by
  simp [encodeStudents, getCol]

theorem encAge (st : DF) :
    getCol (encodeStudents st) "Age" = getCol st "Age" := by
  simp [encodeStudents, getCol]

theorem encAddress (st : DF) :
    getCol (encodeStudents st) "Address" = mapCol addressEnc (getCol st "Address") := by
  simp [encodeStudents, getCol]

theorem encFamilySize (st : DF) :
    getCol (encodeStudents st) "FamilySize" = mapCol famSizeEnc (getCol st "FamilySize") := by
  simp [encodeStudents, getCol]

theorem encParentCohabStatus (st : DF) :
    getCol (encodeStudents st) "ParentCohabStatus" = mapCol cohabEnc (getCol st "ParentCohabStatus") := by
  simp [encodeStudents, getCol]

theorem encMotherEducation (st : DF) :
    getCol (encodeStudents st) "MotherEducation" = getCol st "MotherEducation" := by
  simp [encodeStudents, getCol]

theorem encFatherEducation (st : DF) :
    getCol (encodeStudents st) "FatherEducation" = getCol st "FatherEducation" := by
  simp [encodeStudents, getCol]

theorem encTravelTime (st : DF) :
    getCol (encodeStudents st) "TravelTime" = getCol st "TravelTime" := by
  have h1 := find?_get_dummies_eq_none "MotherJob" "TravelTime" (getCol st "MotherJob") (by decide)
  have h2 := find?_get_dummies_eq_none "FatherJob" "TravelTime" (getCol st "FatherJob") (by decide)
  have h3 := find?_get_dummies_eq_none "SchoolChoiceReason" "TravelTime" (getCol st "SchoolChoiceReason") (by decide)
  simp only [getCol] at h1 h2 h3
  simp [encodeStudents, getCol, List.find?_append, h1, h2, h3]

theorem encStudyTime (st : DF) :
    getCol (encodeStudents st) "StudyTime" = getCol st "StudyTime" := by
  have h1 := find?_get_dummies_eq_none "MotherJob" "StudyTime" (getCol st "MotherJob") (by decide)
  have h2 := find?_get_dummies_eq_none "FatherJob" "StudyTime" (getCol st "FatherJob") (by decide)
  have h3 := find?_get_dummies_eq_none "SchoolChoiceReason" "StudyTime" (getCol st "SchoolChoiceReason") (by decide)
  simp only [getCol] at h1 h2 h3
  simp [encodeStudents, getCol, List.find?_append, h1, h2, h3]

theorem encFailures (st : DF) :
    getCol (encodeStudents st) "Failures" = getCol st "Failures" := by
  have h1 := find?_get_dummies_eq_none "MotherJob" "Failures" (getCol st "MotherJob") (by decide)
  have h2 := find?_get_dummies_eq_none "FatherJob" "Failures" (getCol st "FatherJob") (by decide)
  have h3 := find?_get_dummies_eq_none "SchoolChoiceReason" "Failures" (getCol st "SchoolChoiceReason") (by decide)
  simp only [getCol] at h1 h2 h3
  simp [encodeStudents, getCol, List.find?_append, h1, h2, h3]

theorem encSchoolSup (st : DF) :
    getCol (encodeStudents st) "SchoolSup" = mapCol yesNoEnc (getCol st "SchoolSup") := by
  have h1 := find?_get_dummies_eq_none "MotherJob" "SchoolSup" (getCol st "MotherJob") (by decide)
  have h2 := find?_get_dummies_eq_none "FatherJob" "SchoolSup" (getCol st "FatherJob") (by decide)
  have h3 := find?_get_dummies_eq_none "SchoolChoiceReason" "SchoolSup" (getCol st "SchoolChoiceReason") (by decide)
  simp only [getCol] at h1 h2 h3
  simp [encodeStudents, getCol, List.find?_append, h1, h2, h3]

theorem encFamilySup (st : DF) :
    getCol (encodeStudents st) "FamilySup" = mapCol yesNoEnc (getCol st "FamilySup") := by
  have h1 := find?_get_dummies_eq_none "MotherJob" "FamilySup" (getCol st "MotherJob") (by decide)
  have h2 := find?_get_dummies_eq_none "FatherJob" "FamilySup" (getCol st "FatherJob") (by decide)
  have h3 := find?_get_dummies_eq_none "SchoolChoiceReason" "FamilySup" (getCol st "SchoolChoiceReason") (by decide)
  simp only [getCol] at h1 h2 h3
  simp [encodeStudents, getCol, List.find?_append, h1, h2, h3]

theorem encExtraPaidClasses (st : DF) :
    getCol (encodeStudents st) "ExtraPaidClasses" = mapCol yesNoEnc (getCol st "ExtraPaidClasses") := by
  have h1 := find?_get_dummies_eq_none "MotherJob" "ExtraPaidClasses" (getCol st "MotherJob") (by decide)
  have h2 := find?_get_dummies_eq_none "FatherJob" "ExtraPaidClasses" (getCol st "FatherJob") (by decide)
  have h3 := find?_get_dummies_eq_none "SchoolChoiceReason" "ExtraPaidClasses" (getCol st "SchoolChoiceReason") (by decide)
  simp only [getCol] at h1 h2 h3
  simp [encodeStudents, getCol, List.find?_append, h1, h2, h3]

theorem encNursery (st : DF) :
    getCol (encodeStudents st) "Nursery" = mapCol yesNoEnc (getCol st "Nursery") := by
  have h1 := find?_get_dummies_eq_none "MotherJob" "Nursery" (getCol st "MotherJob") (by decide)
  have h2 := find?_get_dummies_eq_none "FatherJob" "Nursery" (getCol st "FatherJob") (by decide)
  have h3 := find?_get_dummies_eq_none "SchoolChoiceReason" "Nursery" (getCol st "SchoolChoiceReason") (by decide)
  simp only [getCol] at h1 h2 h3
  simp [encodeStudents, getCol, List.find?_append, h1, h2, h3]

theorem encWantsHigherEdu (st : DF) :
    getCol (encodeStudents st) "WantsHigherEdu" = mapCol yesNoEnc (getCol st "WantsHigherEdu") := by
  have h1 := find?_get_dummies_eq_none "MotherJob" "WantsHigherEdu" (getCol st "MotherJob") (by decide)
  have h2 := find?_get_dummies_eq_none "FatherJob" "WantsHigherEdu" (getCol st "FatherJob") (by decide)
  have h3 := find?_get_dummies_eq_none "SchoolChoiceReason" "WantsHigherEdu" (getCol st "SchoolChoiceReason") (by decide)
  simp only [getCol] at h1 h2 h3
  simp [encodeStudents, getCol, List.find?_append, h1, h2, h3]

theorem encHasInternet (st : DF) :
    getCol (encodeStudents st) "HasInternet" = mapCol yesNoEnc (getCol st "HasInternet") := by
  have h1 := find?_get_dummies_eq_none "MotherJob" "HasInternet" (getCol st "MotherJob") (by decide)
  have h2 := find?_get_dummies_eq_none "FatherJob" "HasInternet" (getCol st "FatherJob") (by decide)
  have h3 := find?_get_dummies_eq_none "SchoolChoiceReason" "HasInternet" (getCol st "SchoolChoiceReason") (by decide)
  simp only [getCol] at h1 h2 h3
  simp [encodeStudents, getCol, List.find?_append, h1, h2, h3]

theorem encRomantic (st : DF) :
    getCol (encodeStudents st) "Romantic" = mapCol yesNoEnc (getCol st "Romantic") := by
  have h1 := find?_get_dummies_eq_none "MotherJob" "Romantic" (getCol st "MotherJob") (by decide)
  have h2 := find?_get_dummies_eq_none "FatherJob" "Romantic" (getCol st "FatherJob") (by decide)
  have h3 := find?_get_dummies_eq_none "SchoolChoiceReason" "Romantic" (getCol st "SchoolChoiceReason") (by decide)
  simp only [getCol] at h1 h2 h3
  simp [encodeStudents, getCol, List.find?_append, h1, h2, h3]

theorem encFamilyRelQuality (st : DF) :
    getCol (encodeStudents st) "FamilyRelQuality" = getCol st "FamilyRelQuality" := by
  have h1 := find?_get_dummies_eq_none "MotherJob" "FamilyRelQuality" (getCol st "MotherJob") (by decide)
  have h2 := find?_get_dummies_eq_none "FatherJob" "FamilyRelQuality" (getCol st "FatherJob") (by decide)
  have h3 := find?_get_dummies_eq_none "SchoolChoiceReason" "FamilyRelQuality" (getCol st "SchoolChoiceReason") (by decide)
  simp only [getCol] at h1 h2 h3
  simp [encodeStudents, getCol, List.find?_append, h1, h2, h3]

theorem encFreeTime (st : DF) :
    getCol (encodeStudents st) "FreeTime" = getCol st "FreeTime" := by
  have h1 := find?_get_dummies_eq_none "MotherJob" "FreeTime" (getCol st "MotherJob") (by decide)
  have h2 := find?_get_dummies_eq_none "FatherJob" "FreeTime" (getCol st "FatherJob") (by decide)
  have h3 := find?_get_dummies_eq_none "SchoolChoiceReason" "FreeTime" (getCol st "SchoolChoiceReason") (by decide)
  simp only [getCol] at h1 h2 h3
  simp [encodeStudents, getCol, List.find?_append, h1, h2, h3]

theorem encGoOut (st : DF) :
    getCol (encodeStudents st) "GoOut" = getCol st "GoOut" := by
  have h1 := find?_get_dummies_eq_none "MotherJob" "GoOut" (getCol st "MotherJob") (by decide)
  have h2 := find?_get_dummies_eq_none "FatherJob" "GoOut" (getCol st "FatherJob") (by decide)
  have h3 := find?_get_dummies_eq_none "SchoolChoiceReason" "GoOut" (getCol st "SchoolChoiceReason") (by decide)
  simp only [getCol] at h1 h2 h3
  simp [encodeStudents, getCol, List.find?_append, h1, h2, h3]

theorem encWorkdayAlcohol (st : DF) :
    getCol (encodeStudents st) "WorkdayAlcohol" = getCol st "WorkdayAlcohol" := by
  have h1 := find?_get_dummies_eq_none "MotherJob" "WorkdayAlcohol" (getCol st "MotherJob") (by decide)
  have h2 := find?_get_dummies_eq_none "FatherJob" "WorkdayAlcohol" (getCol st "FatherJob") (by decide)
  have h3 := find?_get_dummies_eq_none "SchoolChoiceReason" "WorkdayAlcohol" (getCol st "SchoolChoiceReason") (by decide)
  simp only [getCol] at h1 h2 h3
  simp [encodeStudents, getCol, List.find?_append, h1, h2, h3]

theorem encWeekendAlcohol (st : DF) :
    getCol (encodeStudents st) "WeekendAlcohol" = getCol st "WeekendAlcohol" := by
  have h1 := find?_get_dummies_eq_none "MotherJob" "WeekendAlcohol" (getCol st "MotherJob") (by decide)
  have h2 := find?_get_dummies_eq_none "FatherJob" "WeekendAlcohol" (getCol st "FatherJob") (by decide)
  have h3 := find?_get_dummies_eq_none "SchoolChoiceReason" "WeekendAlcohol" (getCol st "SchoolChoiceReason") (by decide)
  simp only [getCol] at h1 h2 h3
  simp [encodeStudents, getCol, List.find?_append, h1, h2, h3]

theorem encHealthStatus (st : DF) :
    getCol (encodeStudents st) "HealthStatus" = getCol st "HealthStatus" := by
  have h1 := find?_get_dummies_eq_none "MotherJob" "HealthStatus" (getCol st "MotherJob") (by decide)
  have h2 := find?_get_dummies_eq_none "FatherJob" "HealthStatus" (getCol st "FatherJob") (by decide)
  have h3 := find?_get_dummies_eq_none "SchoolChoiceReason" "HealthStatus" (getCol st "SchoolChoiceReason") (by decide)
  simp only [getCol] at h1 h2 h3
  simp [encodeStudents, getCol, List.find?_append, h1, h2, h3]

theorem encAbsences (st : DF) :
    getCol (encodeStudents st) "Absences" = getCol st "Absences" := by
  have h1 := find?_get_dummies_eq_none "MotherJob" "Absences" (getCol st "MotherJob") (by decide)
  have h2 := find?_get_dummies_eq_none "FatherJob" "Absences" (getCol st "FatherJob") (by decide)
  have h3 := find?_get_dummies_eq_none "SchoolChoiceReason" "Absences" (getCol st "SchoolChoiceReason") (by decide)
  simp only [getCol] at h1 h2 h3
  simp [encodeStudents, getCol, List.find?_append, h1, h2, h3]

theorem encFinalGrade (st : DF) :
    getCol (encodeStudents st) "FinalGrade" = getCol st "FinalGrade" := by
  simp [encodeStudents, getCol]

/-! ### Unfolding `_preprocess_data` -/

/-- On a 32-column frame, `_preprocess_data` renames positionally and
returns the drop/target/frame triple built from the encoded frame. -/
theorem preprocess_eq (cols : List Col) (h : cols.length = 32) :
    _preprocess_data cols =
      some (dropCol (encodeStudents (columnNames.zip cols)) "FinalGrade",
            getCol (encodeStudents (columnNames.zip cols)) "FinalGrade",
            encodeStudents (columnNames.zip cols)) := by
  simp [_preprocess_data, renameColumns, h]

theorem preprocess_inv (cols : List Col) (h : cols.length = 32)
    (X : DF) (y : Col) (df : DF)
    (hp : _preprocess_data cols = some (X, y, df)) :
    df = encodeStudents (columnNames.zip cols) ∧
      X = dropCol df "FinalGrade" ∧ y = getCol df "FinalGrade" := by
  rw [preprocess_eq cols h] at hp
  simp only [Option.some.injEq, Prod.mk.injEq] at hp
  obtain ⟨h1, h2, h3⟩ := hp
  subst h3
  exact ⟨rfl, h1.symm, h2.symm⟩

/-! ### The dictionary encoders, cell by cell -/

theorem mapVal_genderEnc (v : Val) :
    (mapVal genderEnc v = Val.vint 1 ↔ v = Val.vstr "F") ∧
    (mapVal genderEnc v = Val.vint 0 ↔ v = Val.vstr "M") := by
  cases v with
  | vstr s =>
    by_cases h1 : s = "F"
    · simp [mapVal, genderEnc, h1]
    · by_cases h2 : s = "M" <;> simp [mapVal, genderEnc, h1, h2]
  | vint n => simp [mapVal]
  | vnone => simp [mapVal]

theorem mapVal_addressEnc (v : Val) :
    (mapVal addressEnc v = Val.vint 1 ↔ v = Val.vstr "U") ∧
    (mapVal addressEnc v = Val.vint 0 ↔ v = Val.vstr "R") := by
  cases v with
  | vstr s =>
    by_cases h1 : s = "U"
    · simp [mapVal, addressEnc, h1]
    · by_cases h2 : s = "R" <;> simp [mapVal, addressEnc, h1, h2]
  | vint n => simp [mapVal]
  | vnone => simp [mapVal]

theorem mapVal_famSizeEnc (v : Val) :
    (mapVal famSizeEnc v = Val.vint 1 ↔ v = Val.vstr "LE3") ∧
    (mapVal famSizeEnc v = Val.vint 0 ↔ v = Val.vstr "GT3") := by
  cases v with
  | vstr s =>
    by_cases h1 : s = "LE3"
    · simp [mapVal, famSizeEnc, h1]
    · by_cases h2 : s = "GT3" <;> simp [mapVal, famSizeEnc, h1, h2]
  | vint n => simp [mapVal]
  | vnone => simp [mapVal]

theorem mapVal_cohabEnc (v : Val) :
    (mapVal cohabEnc v = Val.vint 1 ↔ v = Val.vstr "T") ∧
    (mapVal cohabEnc v = Val.vint 0 ↔ v = Val.vstr "A") := by
  cases v with
  | vstr s =>
    by_cases h1 : s = "T"
    · simp [mapVal, cohabEnc, h1]
    · by_cases h2 : s = "A" <;> simp [mapVal, cohabEnc, h1, h2]
  | vint n => simp [mapVal]
  | vnone => simp [mapVal]

theorem mapVal_yesNoEnc (v : Val) :
    (mapVal yesNoEnc v = Val.vint 1 ↔ v = Val.vstr "yes") ∧
    (mapVal yesNoEnc v = Val.vint 0 ↔ v = Val.vstr "no") := by
  cases v with
  | vstr s =>
    by_cases h1 : s = "yes"
    · simp [mapVal, yesNoEnc, h1]
    · by_cases h2 : s = "no" <;> simp [mapVal, yesNoEnc, h1, h2]
  | vint n => simp [mapVal]
  | vnone => simp [mapVal]

theorem mapCol_getElem_iff (m : String → Option Int) (col : Col) (i : Nat)
    (k : Int) (s : String)
    (hm : ∀ v, mapVal m v = Val.vint k ↔ v = Val.vstr s) :
    (mapCol m col)[i]? = some (Val.vint k) ↔ col[i]? = some (Val.vstr s) := by
  simp only [mapCol, List.getElem?_map]
  cases h : col[i]? with
  | none => simp
  | some v => simp [hm v]


/-! ### C1: the binary dictionary encodings -/

/-- One dictionary-encoded binary attribute: output column label,
0-based position in the renamed input, encoder dictionary, the value
encoded as 1, and the value encoded as 0. -/
structure BinSpec where
  name : String
  idx : Nat
  enc : String → Option Int
  one : String
  zero : String

/-- The eleven dictionary encodings performed by `_preprocess_data`. -/
def binSpecs : List BinSpec :=
  [   ⟨"Gender", 0, genderEnc, "F", "M"⟩,
   ⟨"Address", 2, addressEnc, "U", "R"⟩,
   ⟨"FamilySize", 3, famSizeEnc, "LE3", "GT3"⟩,
   ⟨"ParentCohabStatus", 4, cohabEnc, "T", "A"⟩,
   ⟨"SchoolSup", 14, yesNoEnc, "yes", "no"⟩,
   ⟨"FamilySup", 15, yesNoEnc, "yes", "no"⟩,
   ⟨"ExtraPaidClasses", 16, yesNoEnc, "yes", "no"⟩,
   ⟨"Nursery", 18, yesNoEnc, "yes", "no"⟩,
   ⟨"WantsHigherEdu", 19, yesNoEnc, "yes", "no"⟩,
   ⟨"HasInternet", 20, yesNoEnc, "yes", "no"⟩,
   ⟨"Romantic", 21, yesNoEnc, "yes", "no"⟩]

/-- **C1.** For every input row of the renamed student frame,
`_preprocess_data` encodes each binary categorical attribute by a fixed
dictionary lookup: the `Gender` output cell is 1 iff the input cell is
`"F"` and 0 iff it is `"M"`; `Address` is 1 iff `"U"` and 0 iff `"R"`;
`FamilySize` is 1 iff `"LE3"` and 0 iff `"GT3"`; `ParentCohabStatus` is
1 iff `"T"` and 0 iff `"A"`; and each of `SchoolSup`, `FamilySup`,
`ExtraPaidClasses`, `Nursery`, `WantsHigherEdu`, `HasInternet` and
`Romantic` is 1 iff `"yes"` and 0 iff `"no"`. -/
theorem c1_dictionary_encoding (cols : List Col) (h : cols.length = 32)
    (X : DF) (y : Col) (df : DF)
    (hp : _preprocess_data cols = some (X, y, df))
    (b : BinSpec) (hb : b ∈ binSpecs) (i : Nat) :
    ((getCol df b.name)[i]? = some (Val.vint 1) ↔
      (cols.getD b.idx [])[i]? = some (Val.vstr b.one)) ∧
    ((getCol df b.name)[i]? = some (Val.vint 0) ↔
      (cols.getD b.idx [])[i]? = some (Val.vstr b.zero)) := by
  obtain ⟨hdf, -, -⟩ := preprocess_inv cols h X y df hp
  subst hdf
  simp only [binSpecs, List.mem_cons, List.not_mem_nil, or_false] at hb
  rcases hb with rfl | rfl | rfl | rfl | rfl | rfl | rfl | rfl | rfl | rfl | rfl
  · dsimp only
    rw [encGender, zipGender cols h]
    exact ⟨mapCol_getElem_iff genderEnc _ i 1 "F" (fun v => (mapVal_genderEnc v).1),
           mapCol_getElem_iff genderEnc _ i 0 "M" (fun v => (mapVal_genderEnc v).2)⟩
  · dsimp only
    rw [encAddress, zipAddress cols h]
    exact ⟨mapCol_getElem_iff addressEnc _ i 1 "U" (fun v => (mapVal_addressEnc v).1),
           mapCol_getElem_iff addressEnc _ i 0 "R" (fun v => (mapVal_addressEnc v).2)⟩
  · dsimp only
    rw [encFamilySize, zipFamilySize cols h]
    exact ⟨mapCol_getElem_iff famSizeEnc _ i 1 "LE3" (fun v => (mapVal_famSizeEnc v).1),
           mapCol_getElem_iff famSizeEnc _ i 0 "GT3" (fun v => (mapVal_famSizeEnc v).2)⟩
  · dsimp only
    rw [encParentCohabStatus, zipParentCohabStatus cols h]
    exact ⟨mapCol_getElem_iff cohabEnc _ i 1 "T" (fun v => (mapVal_cohabEnc v).1),
           mapCol_getElem_iff cohabEnc _ i 0 "A" (fun v => (mapVal_cohabEnc v).2)⟩
  · dsimp only
    rw [encSchoolSup, zipSchoolSup cols h]
    exact ⟨mapCol_getElem_iff yesNoEnc _ i 1 "yes" (fun v => (mapVal_yesNoEnc v).1),
           mapCol_getElem_iff yesNoEnc _ i 0 "no" (fun v => (mapVal_yesNoEnc v).2)⟩
  · dsimp only
    rw [encFamilySup, zipFamilySup cols h]
    exact ⟨mapCol_getElem_iff yesNoEnc _ i 1 "yes" (fun v => (mapVal_yesNoEnc v).1),
           mapCol_getElem_iff yesNoEnc _ i 0 "no" (fun v => (mapVal_yesNoEnc v).2)⟩
  · dsimp only
    rw [encExtraPaidClasses, zipExtraPaidClasses cols h]
    exact ⟨mapCol_getElem_iff yesNoEnc _ i 1 "yes" (fun v => (mapVal_yesNoEnc v).1),
           mapCol_getElem_iff yesNoEnc _ i 0 "no" (fun v => (mapVal_yesNoEnc v).2)⟩
  · dsimp only
    rw [encNursery, zipNursery cols h]
    exact ⟨mapCol_getElem_iff yesNoEnc _ i 1 "yes" (fun v => (mapVal_yesNoEnc v).1),
           mapCol_getElem_iff yesNoEnc _ i 0 "no" (fun v => (mapVal_yesNoEnc v).2)⟩
  · dsimp only
    rw [encWantsHigherEdu, zipWantsHigherEdu cols h]
    exact ⟨mapCol_getElem_iff yesNoEnc _ i 1 "yes" (fun v => (mapVal_yesNoEnc v).1),
           mapCol_getElem_iff yesNoEnc _ i 0 "no" (fun v => (mapVal_yesNoEnc v).2)⟩
  · dsimp only
    rw [encHasInternet, zipHasInternet cols h]
    exact ⟨mapCol_getElem_iff yesNoEnc _ i 1 "yes" (fun v => (mapVal_yesNoEnc v).1),
           mapCol_getElem_iff yesNoEnc _ i 0 "no" (fun v => (mapVal_yesNoEnc v).2)⟩
  · dsimp only
    rw [encRomantic, zipRomantic cols h]
    exact ⟨mapCol_getElem_iff yesNoEnc _ i 1 "yes" (fun v => (mapVal_yesNoEnc v).1),
           mapCol_getElem_iff yesNoEnc _ i 0 "no" (fun v => (mapVal_yesNoEnc v).2)⟩


/-! ### A concrete input frame (first row of the student dataset) -/

/-- A 32-column, one-row input frame: the first row of `student-mat.csv`
(school column dropped, as in the notebook's 32-column schema). -/
def exCols : List Col :=
  [[Val.vstr "F"], [Val.vint 18], [Val.vstr "U"], [Val.vstr "GT3"],
   [Val.vstr "A"], [Val.vint 4], [Val.vint 4], [Val.vstr "at_home"],
   [Val.vstr "teacher"], [Val.vstr "course"], [Val.vstr "mother"],
   [Val.vint 2], [Val.vint 2], [Val.vint 0], [Val.vstr "yes"],
   [Val.vstr "no"], [Val.vstr "no"], [Val.vstr "no"], [Val.vstr "yes"],
   [Val.vstr "yes"], [Val.vstr "no"], [Val.vstr "no"], [Val.vint 4],
   [Val.vint 3], [Val.vint 4], [Val.vint 1], [Val.vint 1], [Val.vint 3],
   [Val.vint 6], [Val.vint 5], [Val.vint 6], [Val.vint 6]]

/-- The encoded frame `_preprocess_data` builds from `exCols`. -/
def exDf : DF := encodeStudents (columnNames.zip exCols)

/-- The feature frame returned for `exCols`. -/
def exX : DF := dropCol exDf "FinalGrade"

/-- The target column returned for `exCols`. -/
def exY : Col := getCol exDf "FinalGrade"

theorem c1_dictionary_encoding_witness :
    (getCol exDf "Gender")[0]? = some (Val.vint 1) :=
  (c1_dictionary_encoding exCols (by decide) exX exY exDf rfl
      ⟨"Gender", 0, genderEnc, "F", "M"⟩
      (by unfold binSpecs; exact List.mem_cons_self _ _) 0).1.mpr (by decide)


/-! ### C7: positional renaming, and C5: totality -/

/-- **C7.** For every input frame with exactly 32 columns,
`_preprocess_data` renames the columns positionally to the fixed list
`columnNames` (Gender, Age, ..., FinalGrade), in that order, before any
encoding is applied: the renamed frame pairs the fixed labels with the
input columns unchanged, and the rest of the function consumes only the
renamed frame. -/
theorem c7_positional_rename (cols : List Col) (h : cols.length = 32) :
    renameColumns cols = some (columnNames.zip cols) ∧
    (columnNames.zip cols).map Prod.fst = columnNames ∧
    (columnNames.zip cols).map Prod.snd = cols ∧
    _preprocess_data cols =
      some (dropCol (encodeStudents (columnNames.zip cols)) "FinalGrade",
            getCol (encodeStudents (columnNames.zip cols)) "FinalGrade",
            encodeStudents (columnNames.zip cols)) := by
  refine ⟨by simp [renameColumns, h], ?_, ?_, preprocess_eq cols h⟩
  · exact List.map_fst_zip columnNames cols (by simp [columnNames, h])
  · exact List.map_snd_zip columnNames cols (by simp [columnNames, h])

theorem c7_positional_rename_witness :
    (columnNames.zip exCols).map Prod.fst = columnNames :=
  (c7_positional_rename exCols (by decide)).2.1

/-- **C5.** `_preprocess_data` is straight-line and total under its
precondition: on every 32-column input frame it returns a triple
`(X, y, df)`; no error branch is reached (the only `none` branch of the
embedding is the pandas length-mismatch on renaming). -/
theorem c5_total_on_32_columns (cols : List Col) (h : cols.length = 32) :
    ∃ X y df, _preprocess_data cols = some (X, y, df) :=
  ⟨_, _, _, preprocess_eq cols h⟩

theorem c5_total_on_32_columns_witness :
    ∃ X y df, _preprocess_data exCols = some (X, y, df) :=
  c5_total_on_32_columns exCols (by decide)

/-! ### Which column labels the encoded frame has -/

theorem hasCol_of_mem (df : DF) (c : String × Col) (hc : c ∈ df) :
    hasCol df c.1 = true :=
  List.any_eq_true.mpr ⟨c, hc, by simp⟩

/-- The 25 fixed labels that `encodeStudents` produces besides the
dummy groups. -/
def fixedEncNames : List String :=
  ["FinalGrade", "Gender", "Age", "Address", "FamilySize",
   "ParentCohabStatus", "MotherEducation", "FatherEducation",
   "TravelTime", "StudyTime", "Failures", "SchoolSup", "FamilySup",
   "ExtraPaidClasses", "Nursery", "WantsHigherEdu", "HasInternet",
   "Romantic", "FamilyRelQuality", "FreeTime", "GoOut",
   "WorkdayAlcohol", "WeekendAlcohol", "HealthStatus", "Absences"]

theorem encodeStudents_names (st : DF) (c : String × Col)
    (hc : c ∈ encodeStudents st) :
    c.1 ∈ fixedEncNames ∨
    (∃ s, c.1 = "MotherJob" ++ "_" ++ s) ∨
    (∃ s, c.1 = "FatherJob" ++ "_" ++ s) ∨
    (∃ s, c.1 = "SchoolChoiceReason" ++ "_" ++ s) := by
  rw [encodeStudents] at hc
  rcases List.mem_append.mp hc with h4 | hend
  · rcases List.mem_append.mp h4 with h3 | hd3
    · rcases List.mem_append.mp h3 with h2 | hd2
      · rcases List.mem_append.mp h2 with h1 | hd1
        · simp only [List.mem_cons, List.not_mem_nil, or_false] at h1
          rcases h1 with rfl | rfl | rfl | rfl | rfl | rfl | rfl | rfl <;>
            exact Or.inl (by simp [fixedEncNames])
        · obtain ⟨s, rfl⟩ := mem_get_dummies _ _ _ hd1
          exact Or.inr (Or.inl ⟨s, rfl⟩)
      · obtain ⟨s, rfl⟩ := mem_get_dummies _ _ _ hd2
        exact Or.inr (Or.inr (Or.inl ⟨s, rfl⟩))
    · obtain ⟨s, rfl⟩ := mem_get_dummies _ _ _ hd3
      exact Or.inr (Or.inr (Or.inr ⟨s, rfl⟩))
  · simp only [List.mem_cons, List.not_mem_nil, or_false] at hend
    rcases hend with rfl | rfl | rfl | rfl | rfl | rfl | rfl | rfl | rfl |
      rfl | rfl | rfl | rfl | rfl | rfl | rfl | rfl <;>
      exact Or.inl (by simp [fixedEncNames])

theorem not_hasCol_encode (st : DF) (name : String)
    (hfix : name ∉ fixedEncNames)
    (h1 : ("MotherJob" ++ "_").data.isPrefixOf name.data = false)
    (h2 : ("FatherJob" ++ "_").data.isPrefixOf name.data = false)
    (h3 : ("SchoolChoiceReason" ++ "_").data.isPrefixOf name.data = false) :
    hasCol (encodeStudents st) name = false := by
  rw [hasCol, List.any_eq_false]
  intro c hc
  simp only [beq_iff_eq]
  rcases encodeStudents_names st c hc with hm | ⟨s, hs⟩ | ⟨s, hs⟩ | ⟨s, hs⟩
  · intro he
    rw [he] at hm
    exact hfix hm
  · rw [hs]
    exact ne_of_not_isPrefixOf _ s name h1
  · rw [hs]
    exact ne_of_not_isPrefixOf _ s name h2
  · rw [hs]
    exact ne_of_not_isPrefixOf _ s name h3

theorem hasCol_dropCol_false (df : DF) (name other : String)
    (h : hasCol df name = false) : hasCol (dropCol df other) name = false := by
  rw [hasCol, List.any_eq_false] at h ⊢
  intro c hc
  exact h c (List.mem_filter.mp hc).1


/-! ### C2: which binary attributes reach the output -/

/-- **C2 (counterexample).** The claim that every declared binary
attribute reaches the preprocessed output fails: on the concrete frame
`exCols`, `_preprocess_data` succeeds but its feature frame `X` has no
`ExtraActivities` column — the notebook never concatenates the encoded
`ExtraActivities` series. -/
theorem c2_counterexample :
    _preprocess_data exCols = some (exX, exY, exDf) ∧
    hasCol exX "ExtraActivities" = false :=
  ⟨rfl, by decide⟩

/-- **C2 (amended).** For every 32-column input frame, the feature frame
`X` contains a dictionary-encoded column for each of the ELEVEN binary
attributes `Gender`, `Address`, `FamilySize`, `ParentCohabStatus`,
`SchoolSup`, `FamilySup`, `ExtraPaidClasses`, `Nursery`,
`WantsHigherEdu`, `HasInternet` and `Romantic`; the declared binary
attribute `ExtraActivities` is omitted: `X` never contains an
`ExtraActivities` column. -/
theorem c2_amended_eleven_binary_columns (cols : List Col)
    (h : cols.length = 32) (X : DF) (y : Col) (df : DF)
    (hp : _preprocess_data cols = some (X, y, df)) :
    (∀ b ∈ binSpecs, hasCol X b.name = true) ∧
    hasCol X "ExtraActivities" = false := by
  obtain ⟨hdf, hX, -⟩ := preprocess_inv cols h X y df hp
  subst hdf
  subst hX
  constructor
  · intro b hb
    simp only [binSpecs, List.mem_cons, List.not_mem_nil, or_false] at hb
    rcases hb with rfl | rfl | rfl | rfl | rfl | rfl | rfl | rfl | rfl | rfl | rfl
    · exact hasCol_of_mem _
        ("Gender", mapCol genderEnc (getCol (columnNames.zip cols) "Gender"))
        (List.mem_filter.mpr ⟨by simp [encodeStudents], rfl⟩)
    · exact hasCol_of_mem _
        ("Address", mapCol addressEnc (getCol (columnNames.zip cols) "Address"))
        (List.mem_filter.mpr ⟨by simp [encodeStudents], rfl⟩)
    · exact hasCol_of_mem _
        ("FamilySize", mapCol famSizeEnc (getCol (columnNames.zip cols) "FamilySize"))
        (List.mem_filter.mpr ⟨by simp [encodeStudents], rfl⟩)
    · exact hasCol_of_mem _
        ("ParentCohabStatus", mapCol cohabEnc (getCol (columnNames.zip cols) "ParentCohabStatus"))
        (List.mem_filter.mpr ⟨by simp [encodeStudents], rfl⟩)
    · exact hasCol_of_mem _
        ("SchoolSup", mapCol yesNoEnc (getCol (columnNames.zip cols) "SchoolSup"))
        (List.mem_filter.mpr ⟨by simp [encodeStudents], rfl⟩)
    · exact hasCol_of_mem _
        ("FamilySup", mapCol yesNoEnc (getCol (columnNames.zip cols) "FamilySup"))
        (List.mem_filter.mpr ⟨by simp [encodeStudents], rfl⟩)
    · exact hasCol_of_mem _
        ("ExtraPaidClasses", mapCol yesNoEnc (getCol (columnNames.zip cols) "ExtraPaidClasses"))
        (List.mem_filter.mpr ⟨by simp [encodeStudents], rfl⟩)
    · exact hasCol_of_mem _
        ("Nursery", mapCol yesNoEnc (getCol (columnNames.zip cols) "Nursery"))
        (List.mem_filter.mpr ⟨by simp [encodeStudents], rfl⟩)
    · exact hasCol_of_mem _
        ("WantsHigherEdu", mapCol yesNoEnc (getCol (columnNames.zip cols) "WantsHigherEdu"))
        (List.mem_filter.mpr ⟨by simp [encodeStudents], rfl⟩)
    · exact hasCol_of_mem _
        ("HasInternet", mapCol yesNoEnc (getCol (columnNames.zip cols) "HasInternet"))
        (List.mem_filter.mpr ⟨by simp [encodeStudents], rfl⟩)
    · exact hasCol_of_mem _
        ("Romantic", mapCol yesNoEnc (getCol (columnNames.zip cols) "Romantic"))
        (List.mem_filter.mpr ⟨by simp [encodeStudents], rfl⟩)
  · exact hasCol_dropCol_false _ _ _
      (not_hasCol_encode _ _ (by decide) (by decide) (by decide) (by decide))

theorem c2_amended_witness : hasCol exX "Gender" = true :=
  (c2_amended_eleven_binary_columns exCols (by decide) exX exY exDf rfl).1
    ⟨"Gender", 0, genderEnc, "F", "M"⟩
    (by unfold binSpecs; exact List.mem_cons_self _ _)

/-! ### C8: target first, G1/G2 dropped -/

/-- **C8.** For every 32-column input frame, the triple `(X, y, df)`
returned by `_preprocess_data` satisfies: the first column of `df` is
`FinalGrade` (the target); `X` equals `df` with the `FinalGrade` column
removed; `y` equals the `FinalGrade` column of `df`; and neither
`FirstGrade` (G1) nor `SecondGrade` (G2) appears as a column of `df`
or of `X`. -/
theorem c8_target_first_grades_dropped (cols : List Col)
    (h : cols.length = 32) (X : DF) (y : Col) (df : DF)
    (hp : _preprocess_data cols = some (X, y, df)) :
    df.head?.map Prod.fst = some "FinalGrade" ∧
    X = dropCol df "FinalGrade" ∧
    y = getCol df "FinalGrade" ∧
    hasCol df "FirstGrade" = false ∧
    hasCol df "SecondGrade" = false ∧
    hasCol X "FirstGrade" = false ∧
    hasCol X "SecondGrade" = false := by
  obtain ⟨hdf, hX, hy⟩ := preprocess_inv cols h X y df hp
  subst hdf
  subst hX
  refine ⟨by simp [encodeStudents], rfl, hy, ?_, ?_, ?_, ?_⟩
  · exact not_hasCol_encode _ _ (by decide) (by decide) (by decide) (by decide)
  · exact not_hasCol_encode _ _ (by decide) (by decide) (by decide) (by decide)
  · exact hasCol_dropCol_false _ _ _
      (not_hasCol_encode _ _ (by decide) (by decide) (by decide) (by decide))
  · exact hasCol_dropCol_false _ _ _
      (not_hasCol_encode _ _ (by decide) (by decide) (by decide) (by decide))

theorem c8_target_first_grades_dropped_witness :
    exDf.head?.map Prod.fst = some "FinalGrade" :=
  (c8_target_first_grades_dropped exCols (by decide) exX exY exDf rfl).1


/-! ### C9: out-of-domain values become missing, not errors -/

/-- **C9.** For any input row whose value in a dictionary-encoded column
lies outside the corresponding mapping's keys (a non-key string, or a
non-string cell), the encoded cell of `df` is the missing value (`NaN`)
rather than an exception: the dictionary encoding step never raises on
out-of-domain values. -/
theorem c9_out_of_domain_is_missing (cols : List Col) (h : cols.length = 32)
    (X : DF) (y : Col) (df : DF)
    (hp : _preprocess_data cols = some (X, y, df))
    (b : BinSpec) (hb : b ∈ binSpecs) (i : Nat) (v : Val)
    (hv : (cols.getD b.idx [])[i]? = some v)
    (hdom : ∀ s, v = Val.vstr s → b.enc s = none) :
    (getCol df b.name)[i]? = some Val.vnone := by
  obtain ⟨hdf, -, -⟩ := preprocess_inv cols h X y df hp
  subst hdf
  have hmv : mapVal b.enc v = Val.vnone := by
    cases v with
    | vstr s =>
      have hd := hdom s rfl
      simp [mapVal, hd]
    | vint n => simp [mapVal]
    | vnone => simp [mapVal]
  simp only [binSpecs, List.mem_cons, List.not_mem_nil, or_false] at hb
  rcases hb with rfl | rfl | rfl | rfl | rfl | rfl | rfl | rfl | rfl | rfl | rfl
  · dsimp only at hv hmv ⊢
    rw [encGender, zipGender cols h]
    simp only [mapCol, List.getElem?_map, hv, Option.map_some']
    simp [hmv]
  · dsimp only at hv hmv ⊢
    rw [encAddress, zipAddress cols h]
    simp only [mapCol, List.getElem?_map, hv, Option.map_some']
    simp [hmv]
  · dsimp only at hv hmv ⊢
    rw [encFamilySize, zipFamilySize cols h]
    simp only [mapCol, List.getElem?_map, hv, Option.map_some']
    simp [hmv]
  · dsimp only at hv hmv ⊢
    rw [encParentCohabStatus, zipParentCohabStatus cols h]
    simp only [mapCol, List.getElem?_map, hv, Option.map_some']
    simp [hmv]
  · dsimp only at hv hmv ⊢
    rw [encSchoolSup, zipSchoolSup cols h]
    simp only [mapCol, List.getElem?_map, hv, Option.map_some']
    simp [hmv]
  · dsimp only at hv hmv ⊢
    rw [encFamilySup, zipFamilySup cols h]
    simp only [mapCol, List.getElem?_map, hv, Option.map_some']
    simp [hmv]
  · dsimp only at hv hmv ⊢
    rw [encExtraPaidClasses, zipExtraPaidClasses cols h]
    simp only [mapCol, List.getElem?_map, hv, Option.map_some']
    simp [hmv]
  · dsimp only at hv hmv ⊢
    rw [encNursery, zipNursery cols h]
    simp only [mapCol, List.getElem?_map, hv, Option.map_some']
    simp [hmv]
  · dsimp only at hv hmv ⊢
    rw [encWantsHigherEdu, zipWantsHigherEdu cols h]
    simp only [mapCol, List.getElem?_map, hv, Option.map_some']
    simp [hmv]
  · dsimp only at hv hmv ⊢
    rw [encHasInternet, zipHasInternet cols h]
    simp only [mapCol, List.getElem?_map, hv, Option.map_some']
    simp [hmv]
  · dsimp only at hv hmv ⊢
    rw [encRomantic, zipRomantic cols h]
    simp only [mapCol, List.getElem?_map, hv, Option.map_some']
    simp [hmv]

/-- The frame `exCols` with an out-of-domain Gender value `"X"`. -/
def exCols9 : List Col := exCols.set 0 [Val.vstr "X"]

/-- The encoded frame built from `exCols9`. -/
def exDf9 : DF := encodeStudents (columnNames.zip exCols9)

theorem c9_out_of_domain_is_missing_witness :
    (getCol exDf9 "Gender")[0]? = some Val.vnone :=
  c9_out_of_domain_is_missing exCols9 (by decide)
    (dropCol exDf9 "FinalGrade") (getCol exDf9 "FinalGrade") exDf9 rfl
    ⟨"Gender", 0, genderEnc, "F", "M"⟩
    (by unfold binSpecs; exact List.mem_cons_self _ _) 0 (Val.vstr "X")
    (by decide)
    (by intro s hs; injection hs with h2; subst h2; rfl)

/-! ### getCol after dropping a different column -/

theorem getCol_dropCol (df : DF) (name other : String) (h : ¬ name = other) :
    getCol (dropCol df other) name = getCol df name := by
  induction df with
  | nil => rfl
  | cons c cs ih =>
    rcases c with ⟨cn, cc⟩
    by_cases hc : cn = other
    · subst hc
      have hcn : ¬ cn = name := fun he => h he.symm
      rw [getCol_cons_ne _ _ _ _ hcn, ← ih]
      congr 1
      simp [dropCol, List.filter_cons]
    · have hbne : (cn != other) = true := by simpa using hc
      by_cases hn : cn = name
      · subst hn
        simp [dropCol, List.filter_cons, hbne, getCol]
      · rw [dropCol, List.filter_cons]
        simp only [hbne, if_true]
        rw [getCol_cons_ne _ _ _ _ hn, getCol_cons_ne _ _ _ _ hn]
        exact ih


/-! ### C10: rows preserved, numeric attributes copied -/

/-- The thirteen numerical attributes and their 0-based positions in the
renamed input frame. -/
def numSpecs : List (String × Nat) :=
  [("Age", 1), ("MotherEducation", 5), ("FatherEducation", 6),
   ("TravelTime", 11), ("StudyTime", 12), ("Failures", 13),
   ("FamilyRelQuality", 22), ("FreeTime", 23), ("GoOut", 24),
   ("WorkdayAlcohol", 25), ("WeekendAlcohol", 26), ("HealthStatus", 27),
   ("Absences", 28)]

/-- **C10.** `_preprocess_data` preserves the number and order of rows:
for every rectangular 32-column input of `n` rows, every column of `df`
and of `X`, and the target `y`, has exactly `n` cells; and every
numerical attribute (Age, MotherEducation, FatherEducation, TravelTime,
StudyTime, Failures, FamilyRelQuality, FreeTime, GoOut, WorkdayAlcohol,
WeekendAlcohol, HealthStatus, Absences) is copied into `df` and `X`
unchanged, value for value and in row order. -/
theorem c10_rows_preserved_numerics_copied (cols : List Col)
    (h : cols.length = 32) (n : Nat) (hrect : ∀ c ∈ cols, c.length = n)
    (X : DF) (y : Col) (df : DF)
    (hp : _preprocess_data cols = some (X, y, df)) :
    (∀ c ∈ df, c.2.length = n) ∧ (∀ c ∈ X, c.2.length = n) ∧
    y.length = n ∧
    (∀ p ∈ numSpecs, getCol df p.1 = cols.getD p.2 [] ∧
      getCol X p.1 = cols.getD p.2 []) := by
  obtain ⟨hdf, hX, hy⟩ := preprocess_inv cols h X y df hp
  subst hdf
  subst hX
  subst hy
  have hlen : ∀ k, k < 32 → (cols.getD k []).length = n := fun k hk =>
    hrect _ (getD_mem_of_lt cols k [] (by omega))
  have hdflen : ∀ c ∈ encodeStudents (columnNames.zip cols),
      c.2.length = n := by
    intro c hc
    rw [encodeStudents] at hc
    rcases List.mem_append.mp hc with h4 | hend
    · rcases List.mem_append.mp h4 with h3 | hd3
      · rcases List.mem_append.mp h3 with h2 | hd2
        · rcases List.mem_append.mp h2 with h1 | hd1
          · simp only [List.mem_cons, List.not_mem_nil, or_false] at h1
            rcases h1 with rfl | rfl | rfl | rfl | rfl | rfl | rfl | rfl
            · dsimp only
              rw [zipFinalGrade cols h]
              exact hlen 31 (by omega)
            · dsimp only
              rw [mapCol, List.length_map, zipGender cols h]
              exact hlen 0 (by omega)
            · dsimp only
              rw [zipAge cols h]
              exact hlen 1 (by omega)
            · dsimp only
              rw [mapCol, List.length_map, zipAddress cols h]
              exact hlen 2 (by omega)
            · dsimp only
              rw [mapCol, List.length_map, zipFamilySize cols h]
              exact hlen 3 (by omega)
            · dsimp only
              rw [mapCol, List.length_map, zipParentCohabStatus cols h]
              exact hlen 4 (by omega)
            · dsimp only
              rw [zipMotherEducation cols h]
              exact hlen 5 (by omega)
            · dsimp only
              rw [zipFatherEducation cols h]
              exact hlen 6 (by omega)
          · obtain ⟨s, rfl⟩ := mem_get_dummies _ _ _ hd1
            dsimp only
            rw [List.length_map, zipMotherJob cols h]
            exact hlen 7 (by omega)
        · obtain ⟨s, rfl⟩ := mem_get_dummies _ _ _ hd2
          dsimp only
          rw [List.length_map, zipFatherJob cols h]
          exact hlen 8 (by omega)
      · obtain ⟨s, rfl⟩ := mem_get_dummies _ _ _ hd3
        dsimp only
        rw [List.length_map, zipSchoolChoiceReason cols h]
        exact hlen 9 (by omega)
    · simp only [List.mem_cons, List.not_mem_nil, or_false] at hend
      rcases hend with rfl | rfl | rfl | rfl | rfl | rfl | rfl | rfl | rfl | rfl | rfl | rfl | rfl | rfl | rfl | rfl | rfl
      · dsimp only
        rw [zipTravelTime cols h]
        exact hlen 11 (by omega)
      · dsimp only
        rw [zipStudyTime cols h]
        exact hlen 12 (by omega)
      · dsimp only
        rw [zipFailures cols h]
        exact hlen 13 (by omega)
      · dsimp only
        rw [mapCol, List.length_map, zipSchoolSup cols h]
        exact hlen 14 (by omega)
      · dsimp only
        rw [mapCol, List.length_map, zipFamilySup cols h]
        exact hlen 15 (by omega)
      · dsimp only
        rw [mapCol, List.length_map, zipExtraPaidClasses cols h]
        exact hlen 16 (by omega)
      · dsimp only
        rw [mapCol, List.length_map, zipNursery cols h]
        exact hlen 18 (by omega)
      · dsimp only
        rw [mapCol, List.length_map, zipWantsHigherEdu cols h]
        exact hlen 19 (by omega)
      · dsimp only
        rw [mapCol, List.length_map, zipHasInternet cols h]
        exact hlen 20 (by omega)
      · dsimp only
        rw [mapCol, List.length_map, zipRomantic cols h]
        exact hlen 21 (by omega)
      · dsimp only
        rw [zipFamilyRelQuality cols h]
        exact hlen 22 (by omega)
      · dsimp only
        rw [zipFreeTime cols h]
        exact hlen 23 (by omega)
      · dsimp only
        rw [zipGoOut cols h]
        exact hlen 24 (by omega)
      · dsimp only
        rw [zipWorkdayAlcohol cols h]
        exact hlen 25 (by omega)
      · dsimp only
        rw [zipWeekendAlcohol cols h]
        exact hlen 26 (by omega)
      · dsimp only
        rw [zipHealthStatus cols h]
        exact hlen 27 (by omega)
      · dsimp only
        rw [zipAbsences cols h]
        exact hlen 28 (by omega)
  refine ⟨hdflen, ?_, ?_, ?_⟩
  · intro c hc
    exact hdflen c (List.mem_filter.mp hc).1
  · rw [encFinalGrade, zipFinalGrade cols h]
    exact hlen 31 (by omega)
  · intro p hp2
    simp only [numSpecs, List.mem_cons, List.not_mem_nil, or_false] at hp2
    rcases hp2 with rfl | rfl | rfl | rfl | rfl | rfl | rfl | rfl | rfl | rfl | rfl | rfl | rfl
    · dsimp only
      constructor
      · rw [encAge, zipAge cols h]
      · rw [getCol_dropCol _ _ _ (by decide), encAge, zipAge cols h]
    · dsimp only
      constructor
      · rw [encMotherEducation, zipMotherEducation cols h]
      · rw [getCol_dropCol _ _ _ (by decide), encMotherEducation, zipMotherEducation cols h]
    · dsimp only
      constructor
      · rw [encFatherEducation, zipFatherEducation cols h]
      · rw [getCol_dropCol _ _ _ (by decide), encFatherEducation, zipFatherEducation cols h]
    · dsimp only
      constructor
      · rw [encTravelTime, zipTravelTime cols h]
      · rw [getCol_dropCol _ _ _ (by decide), encTravelTime, zipTravelTime cols h]
    · dsimp only
      constructor
      · rw [encStudyTime, zipStudyTime cols h]
      · rw [getCol_dropCol _ _ _ (by decide), encStudyTime, zipStudyTime cols h]
    · dsimp only
      constructor
      · rw [encFailures, zipFailures cols h]
      · rw [getCol_dropCol _ _ _ (by decide), encFailures, zipFailures cols h]
    · dsimp only
      constructor
      · rw [encFamilyRelQuality, zipFamilyRelQuality cols h]
      · rw [getCol_dropCol _ _ _ (by decide), encFamilyRelQuality, zipFamilyRelQuality cols h]
    · dsimp only
      constructor
      · rw [encFreeTime, zipFreeTime cols h]
      · rw [getCol_dropCol _ _ _ (by decide), encFreeTime, zipFreeTime cols h]
    · dsimp only
      constructor
      · rw [encGoOut, zipGoOut cols h]
      · rw [getCol_dropCol _ _ _ (by decide), encGoOut, zipGoOut cols h]
    · dsimp only
      constructor
      · rw [encWorkdayAlcohol, zipWorkdayAlcohol cols h]
      · rw [getCol_dropCol _ _ _ (by decide), encWorkdayAlcohol, zipWorkdayAlcohol cols h]
    · dsimp only
      constructor
      · rw [encWeekendAlcohol, zipWeekendAlcohol cols h]
      · rw [getCol_dropCol _ _ _ (by decide), encWeekendAlcohol, zipWeekendAlcohol cols h]
    · dsimp only
      constructor
      · rw [encHealthStatus, zipHealthStatus cols h]
      · rw [getCol_dropCol _ _ _ (by decide), encHealthStatus, zipHealthStatus cols h]
    · dsimp only
      constructor
      · rw [encAbsences, zipAbsences cols h]
      · rw [getCol_dropCol _ _ _ (by decide), encAbsences, zipAbsences cols h]

theorem c10_rows_preserved_numerics_copied_witness :
    getCol exDf "Age" = exCols.getD 1 [] :=
  ((c10_rows_preserved_numerics_copied exCols (by decide) 1
      (by decide) exX exY exDf rfl).2.2.2 ("Age", 1)
      (by unfold numSpecs; exact List.mem_cons_self _ _)).1


/-! ### C3: one-hot expansion of the nominal attributes -/

theorem insertStr_perm (s : String) (l : List String) :
    (insertStr s l).Perm (s :: l) := by
  induction l with
  | nil => exact List.Perm.refl _
  | cons t ts ih =>
    rw [insertStr]
    by_cases hs : s ≤ t
    · simp only [hs, if_true]
      exact List.Perm.refl _
    · simp only [hs, if_false]
      exact (ih.cons t).trans (List.Perm.swap s t ts)

theorem sortStrs_perm (l : List String) : (sortStrs l).Perm l := by
  induction l with
  | nil => exact List.Perm.refl _
  | cons s ss ih => exact (insertStr_perm s (sortStrs ss)).trans (ih.cons s)

theorem dummyVals_nodup (col : Col) : (dummyVals col).Nodup :=
  (sortStrs_perm _).nodup_iff.mpr (List.nodup_dedup _)

theorem mem_dummyVals (col : Col) (s : String) :
    s ∈ dummyVals col ↔ Val.vstr s ∈ col := by
  rw [dummyVals, (sortStrs_perm _).mem_iff, List.mem_dedup, List.mem_filterMap]
  constructor
  · rintro ⟨v, hv, hvs⟩
    cases v with
    | vstr t =>
      simp only [toStr, Option.some.injEq] at hvs
      subst hvs
      exact hv
    | vint m => simp [toStr] at hvs
    | vnone => simp [toStr] at hvs
  · intro h2
    exact ⟨Val.vstr s, h2, rfl⟩

theorem string_append_left_cancel (pre a b : String)
    (h : pre ++ a = pre ++ b) : a = b := by
  have hd := congrArg String.data h
  rw [String.data_append, String.data_append] at hd
  exact String.ext (List.append_cancel_left hd)

theorem get_dummies_names (pre : String) (col : Col) :
    (get_dummies pre col).map Prod.fst =
      (dummyVals col).map (fun s => pre ++ "_" ++ s) := by
  rw [get_dummies, List.map_map]
  rfl

theorem get_dummies_names_nodup (pre : String) (col : Col) :
    ((get_dummies pre col).map Prod.fst).Nodup := by
  rw [get_dummies_names]
  refine (dummyVals_nodup col).map ?_ 
  intro a b hab
  exact string_append_left_cancel (pre ++ "_") a b hab

theorem get_dummies_row (pre : String) (col : Col) (i : Nat) (s : String)
    (hc : col[i]? = some (Val.vstr s)) :
    (get_dummies pre col).map (fun c => c.2[i]?) =
      (dummyVals col).map
        (fun t => some (if s = t then Val.vint 1 else Val.vint 0)) := by
  rw [get_dummies, List.map_map]
  refine List.map_congr_left ?_
  intro t ht
  simp only [Function.comp, List.getElem?_map, hc, Option.map_some']
  by_cases hst : s = t <;> simp [hst]

theorem get_dummies_one_hot (pre : String) (col : Col) (i : Nat) (s : String)
    (hc : col[i]? = some (Val.vstr s)) :
    ((get_dummies pre col).map (fun c => c.2[i]?)).count
        (some (Val.vint 1)) = 1 ∧
    ∀ o ∈ (get_dummies pre col).map (fun c => c.2[i]?),
      o = some (Val.vint 1) ∨ o = some (Val.vint 0) := by
  have hmem : s ∈ dummyVals col :=
    (mem_dummyVals col s).mpr (List.getElem?_mem hc)
  rw [get_dummies_row pre col i s hc]
  constructor
  · rw [List.count, List.countP_map]
    have hcong : List.countP
        ((fun o => o == some (Val.vint 1)) ∘
          (fun t => some (if s = t then Val.vint 1 else Val.vint 0)))
        (dummyVals col) = List.countP (fun t => t == s) (dummyVals col) := by
      refine List.countP_congr ?_
      intro t ht
      simp only [Function.comp]
      by_cases hst : s = t
      · subst hst
        simp
      · simp [hst, Ne.symm hst]
    rw [hcong]
    rw [← List.count]
    exact List.count_eq_one_of_mem (dummyVals_nodup col) hmem
  · intro o ho
    rcases List.mem_map.mp ho with ⟨t, ht, rfl⟩
    by_cases hst : s = t <;> simp [hst]


/-- The three nominal attributes one-hot expanded by `_preprocess_data`,
with their 0-based positions in the renamed input frame. -/
def nomSpecs : List (String × Nat) :=
  [("MotherJob", 7), ("FatherJob", 8), ("SchoolChoiceReason", 9)]

/-- **C3.** For each nominal attribute (MotherJob, FatherJob,
SchoolChoiceReason), `_preprocess_data` expands the column one-hot: the
output frame contains every indicator column of the group; there is one
indicator column, labelled with the attribute prefix, per distinct value
occurring in that input column (no duplicates); and for every input row
holding a (string) value, exactly one indicator in the group equals 1
and all the others equal 0. -/
theorem c3_one_hot_expansion (cols : List Col) (h : cols.length = 32)
    (X : DF) (y : Col) (df : DF)
    (hp : _preprocess_data cols = some (X, y, df))
    (p : String × Nat) (hq : p ∈ nomSpecs) :
    (∀ c ∈ get_dummies p.1 (cols.getD p.2 []), c ∈ df) ∧
    ((get_dummies p.1 (cols.getD p.2 [])).map Prod.fst =
      (dummyVals (cols.getD p.2 [])).map (fun s => p.1 ++ "_" ++ s)) ∧
    ((get_dummies p.1 (cols.getD p.2 [])).map Prod.fst).Nodup ∧
    (∀ s, s ∈ dummyVals (cols.getD p.2 []) ↔
      Val.vstr s ∈ cols.getD p.2 []) ∧
    (∀ (i : Nat) (s : String),
      (cols.getD p.2 [])[i]? = some (Val.vstr s) →
      ((get_dummies p.1 (cols.getD p.2 [])).map
          (fun c => c.2[i]?)).count (some (Val.vint 1)) = 1 ∧
        ∀ o ∈ (get_dummies p.1 (cols.getD p.2 [])).map (fun c => c.2[i]?),
          o = some (Val.vint 1) ∨ o = some (Val.vint 0)) := by
  obtain ⟨hdf, -, -⟩ := preprocess_inv cols h X y df hp
  subst hdf
  simp only [nomSpecs, List.mem_cons, List.not_mem_nil, or_false] at hq
  rcases hq with rfl | rfl | rfl
  · dsimp only
    refine ⟨?_, get_dummies_names _ _, get_dummies_names_nodup _ _,
      fun s => mem_dummyVals _ s,
      fun i s hc => get_dummies_one_hot _ _ i s hc⟩
    intro c hc
    rw [← zipMotherJob cols h] at hc
    rw [encodeStudents]
    exact List.mem_append_left _ (List.mem_append_left _ (List.mem_append_left _ (List.mem_append_right _ hc)))
  · dsimp only
    refine ⟨?_, get_dummies_names _ _, get_dummies_names_nodup _ _,
      fun s => mem_dummyVals _ s,
      fun i s hc => get_dummies_one_hot _ _ i s hc⟩
    intro c hc
    rw [← zipFatherJob cols h] at hc
    rw [encodeStudents]
    exact List.mem_append_left _ (List.mem_append_left _ (List.mem_append_right _ hc))
  · dsimp only
    refine ⟨?_, get_dummies_names _ _, get_dummies_names_nodup _ _,
      fun s => mem_dummyVals _ s,
      fun i s hc => get_dummies_one_hot _ _ i s hc⟩
    intro c hc
    rw [← zipSchoolChoiceReason cols h] at hc
    rw [encodeStudents]
    exact List.mem_append_left _ (List.mem_append_right _ hc)

theorem c3_one_hot_expansion_witness :
    ((get_dummies "MotherJob" (exCols.getD 7 [])).map
        (fun c => c.2[0]?)).count (some (Val.vint 1)) = 1 :=
  ((c3_one_hot_expansion exCols (by decide) exX exY exDf rfl
      ("MotherJob", 7)
      (by unfold nomSpecs; exact List.mem_cons_self _ _)).2.2.2.2
    0 "at_home" (by decide)).1


/-! ### C4: the train/validation split -/

/-- Modelled from the spec: `sklearn.model_selection.train_test_split(df,
test_size=0.2, random_state=42)` — the sklearn split routine is not part
of this repository, so it is modelled here.  With test fraction 0.2 it
draws `ceil(n / 5)` rows for the validation (test) set and the remaining
rows for the training set, after shuffling the rows; the shuffle that
`random_state=42` produces is abstracted as the row-index permutation
parameter `perm`.  The result pair is `(train, validation)`. -/
def train_test_split (rows : List (List Val)) (perm : List Nat) :
    List (List Val) × List (List Val) :=
  ((perm.map (fun i => rows.getD i [])).drop ((rows.length + 4) / 5),
   (perm.map (fun i => rows.getD i [])).take ((rows.length + 4) / 5))

theorem range_map_getD {α : Type _} (l : List α) (d : α) :
    (List.range l.length).map (fun i => l.getD i d) = l := by
  induction l with
  | nil => rfl
  | cons a t ih =>
    simp only [List.length_cons, List.range_succ_eq_map, List.map_cons,
      List.map_map, List.getD_cons_zero, Function.comp_def,
      Nat.succ_eq_add_one, List.getD_cons_succ]
    rw [ih]

/-- **C4.** For every non-empty frame of `n` rows and every shuffle of
its row indices, `train_test_split` with test fraction 0.2 produces a
validation set of exactly `ceil(0.2 * n) = (n + 4) / 5` rows (the least
`k` with `n ≤ 5k`) and a training set of the remaining `n - (n + 4) / 5`
rows, and the training set followed by the validation set is a
permutation of the input rows: every input row appears, unchanged, in
exactly one of the two sets. -/
theorem c4_train_test_split (rows : List (List Val)) (perm : List Nat)
    (hperm : perm.Perm (List.range rows.length)) (_hne : rows ≠ []) :
    (train_test_split rows perm).2.length = (rows.length + 4) / 5 ∧
    rows.length ≤ 5 * (train_test_split rows perm).2.length ∧
    5 * (train_test_split rows perm).2.length < rows.length + 5 ∧
    (train_test_split rows perm).1.length =
      rows.length - (rows.length + 4) / 5 ∧
    ((train_test_split rows perm).1 ++
      (train_test_split rows perm).2).Perm rows := by
  have hshuf : (perm.map (fun i => rows.getD i [])).Perm rows := by
    have hm := hperm.map (fun i => rows.getD i [])
    rw [range_map_getD rows []] at hm
    exact hm
  have hplen : perm.length = rows.length := by
    rw [hperm.length_eq, List.length_range]
  have htake : (train_test_split rows perm).2.length =
      (rows.length + 4) / 5 := by
    simp [train_test_split, hplen]
    omega
  have hdrop : (train_test_split rows perm).1.length =
      rows.length - (rows.length + 4) / 5 := by
    simp [train_test_split, hplen]
  refine ⟨htake, ?_, ?_, hdrop, ?_⟩
  · rw [htake]
    omega
  · rw [htake]
    omega
  · refine (List.perm_append_comm).trans ?_
    rw [train_test_split]
    dsimp only
    rw [List.take_append_drop]
    exact hshuf

theorem c4_train_test_split_witness :
    ([2, 0, 1] : List Nat).Perm (List.range 3) ∧
    (train_test_split [[Val.vint 1], [Val.vint 2], [Val.vint 3]]
        [2, 0, 1]).2.length = 1 :=
  ⟨by decide,
   (c4_train_test_split [[Val.vint 1], [Val.vint 2], [Val.vint 3]]
      [2, 0, 1] (by decide) (by simp)).1⟩

/-! ### C6: ordering of the remote job submissions -/

/-- The remote operations the notebook submits, in the order its cells
execute: upload both datasets to object storage, run the pre-training
bias job, fit the hyperparameter tuning (training) job, deploy the best
model to the inference endpoint, run the post-training bias job, and run
the explainability (SHAP) job against the deployed model. -/
inductive JobStep where
  | uploadTrainData
  | uploadValidationData
  | preTrainingBias
  | tunerFit
  | tunerDeploy
  | postTrainingBias
  | explainability
  deriving DecidableEq, Repr

/-- The notebook's submission order (its cells in document order). -/
def notebookJobOrder : List JobStep :=
  [.uploadTrainData, .uploadValidationData, .preTrainingBias, .tunerFit,
   .tunerDeploy, .postTrainingBias, .explainability]

/-- The managed (remote) jobs, as opposed to the two data uploads. -/
def managedJobs : List JobStep :=
  [.preTrainingBias, .tunerFit, .tunerDeploy, .postTrainingBias,
   .explainability]

/-- **C6.** The remote submissions occur in a fixed order: both data
uploads precede every managed job; the pre-training bias job precedes
the tuning job; the tuning job precedes the deployment; and the
post-training bias job and the explainability job come only after the
best model has been deployed behind the inference endpoint — so the
bias service runs both before and after training, and the explainability
service runs against the deployed model. -/
theorem c6_job_submission_order :
    (∀ j ∈ managedJobs,
      notebookJobOrder.indexOf JobStep.uploadTrainData <
        notebookJobOrder.indexOf j ∧
      notebookJobOrder.indexOf JobStep.uploadValidationData <
        notebookJobOrder.indexOf j) ∧
    notebookJobOrder.indexOf JobStep.preTrainingBias <
      notebookJobOrder.indexOf JobStep.tunerFit ∧
    notebookJobOrder.indexOf JobStep.tunerFit <
      notebookJobOrder.indexOf JobStep.tunerDeploy ∧
    notebookJobOrder.indexOf JobStep.tunerDeploy <
      notebookJobOrder.indexOf JobStep.postTrainingBias ∧
    notebookJobOrder.indexOf JobStep.tunerDeploy <
      notebookJobOrder.indexOf JobStep.explainability := by
  decide


end StudentClarify
